import Mathlib

/-!
Shallow embedding of `src/main.py` (class `InstagramBot`) and proofs about it.

The program is a single sequential browser bot.  We embed it as pure
functions producing traces of `Event`s; browser nondeterminism (which
elements the page yields, which selenium calls raise) is made explicit as
environment records passed to each function.  Machine-level concerns do not
arise: the config values are small numbers (modelled as `ℚ` for the float
fields and `Nat` for the counts) and strings.
-/

namespace InstagramBot

/-! ## Configuration (`load_config`, lines 21-42)

A JSON config file is a dictionary that may contain any subset of the six
keys the program ever reads.  `ConfigDict` models such a dictionary: a field
is `none` when the key is absent from the file.  `comment_probability` and
the wait bounds are floats in Python; we model them as rationals. -/

structure ConfigDict where
  wait_time_min : Option ℚ
  wait_time_max : Option ℚ
  posts_per_user : Option Nat
  max_likes_per_session : Option Nat
  random_comments : Option (List String)
  comment_probability : Option ℚ
deriving DecidableEq, Repr

/-- The default dictionary built in the `except FileNotFoundError` branch of
`load_config` (lines 28-42 of `src/main.py`). -/
def defaultConfigDict : ConfigDict :=
  { wait_time_min := some 2
    wait_time_max := some 4
    posts_per_user := some 3
    max_likes_per_session := some 50
    random_comments := some
      ["Great post! 👍", "Amazing! 🔥", "Love this! ❤️", "Awesome content! ✨"]
    comment_probability := some 0.2 }

/-- `load_config` (lines 21-42): `open` + `json.load` succeed exactly when the
file exists, and the parsed content is returned verbatim; on
`FileNotFoundError` the default dictionary is returned.  The argument models
the state of the file system at `config_path`: `none` when the file is
missing, `some d` when it exists and parses to the dictionary `d`. -/
def load_config (file : Option ConfigDict) : ConfigDict :=
  match file with
  | some content => content
  | none => defaultConfigDict

/-- Modelled from the spec: the merge the spec describes in testable
property (2), "given a config file overriding one field, only that field
changes from defaults" — the defaults with exactly the keys present in the
file replaced.  The source contains no such merge; this definition exists
only to state that spec sentence for comparison with `load_config`. -/
def mergeWithDefaults (d : ConfigDict) : ConfigDict :=
  { wait_time_min := d.wait_time_min.orElse (fun _ => defaultConfigDict.wait_time_min)
    wait_time_max := d.wait_time_max.orElse (fun _ => defaultConfigDict.wait_time_max)
    posts_per_user := d.posts_per_user.orElse (fun _ => defaultConfigDict.posts_per_user)
    max_likes_per_session :=
      d.max_likes_per_session.orElse (fun _ => defaultConfigDict.max_likes_per_session)
    random_comments := d.random_comments.orElse (fun _ => defaultConfigDict.random_comments)
    comment_probability :=
      d.comment_probability.orElse (fun _ => defaultConfigDict.comment_probability) }

/-- Number of keys present in a config dictionary. -/
def presentFields (d : ConfigDict) : Nat :=
  (if d.wait_time_min.isSome then 1 else 0) +
  (if d.wait_time_max.isSome then 1 else 0) +
  (if d.posts_per_user.isSome then 1 else 0) +
  (if d.max_likes_per_session.isSome then 1 else 0) +
  (if d.random_comments.isSome then 1 else 0) +
  (if d.comment_probability.isSome then 1 else 0)

/-- A config file that contains exactly one key, `posts_per_user`, set to 5. -/
def onlyPostsFile : ConfigDict :=
  { wait_time_min := none
    wait_time_max := none
    posts_per_user := some 5
    max_likes_per_session := none
    random_comments := none
    comment_probability := none }

/-! ## Runtime model

Every method other than `load_config` reads the six keys unconditionally
(`self.config['wait_time']['min']`, …), so the running bot is modelled over
a fully-populated configuration record `Config`.  The behaviour of a run is
its trace: the list of `Event`s, in order.  Randomness (`random.uniform`,
`random.random`, `random.choice`) and selenium failures (an element missing,
a timeout, a failed click) are inputs, supplied in environment records. -/

structure Config where
  wait_time_min : ℚ
  wait_time_max : ℚ
  posts_per_user : Nat
  max_likes_per_session : Nat
  random_comments : List String
  comment_probability : ℚ
deriving DecidableEq, Repr

/-- The runtime form of the default configuration. -/
def defaultConfig : Config :=
  { wait_time_min := 2
    wait_time_max := 4
    posts_per_user := 3
    max_likes_per_session := 50
    random_comments :=
      ["Great post! 👍", "Amazing! 🔥", "Love this! ❤️", "Awesome content! ✨"]
    comment_probability := 0.2 }

/-- One observable step of the bot. `sleep lo hi` records the bounds passed
to `random.uniform` (the sampled duration itself is timing, not behaviour). -/
inductive Event where
  | login (ok : Bool)
  | navigate (user : String)
  | sleep (lo hi : ℚ)
  | clickPost (user : String) (idx : Nat)
  | like (user : String) (idx : Nat)
  | comment (text : String)
  | closePost (user : String) (idx : Nat)
  | cleanup
deriving DecidableEq, Repr

/-- Python's `x or default` for a float argument defaulted to `None`:
`None` and `0.0` are falsy, any other number is returned unchanged. -/
def pyOr (x : Option ℚ) (d : ℚ) : ℚ :=
  match x with
  | none => d
  | some v => if v = 0 then d else v

/-- `random_sleep` (lines 66-70): returns the pair of bounds actually passed
to `random.uniform` after the `or`-fallback on each argument. -/
def random_sleep (cfg : Config) (min_time max_time : Option ℚ) : ℚ × ℚ :=
  (pyOr min_time cfg.wait_time_min, pyOr max_time cfg.wait_time_max)

/-- The `sleep` event a call `self.random_sleep(min_time, max_time)` emits. -/
def sleepEv (cfg : Config) (min_time max_time : Option ℚ) : Event :=
  Event.sleep (random_sleep cfg min_time max_time).1
    (random_sleep cfg min_time max_time).2

/-- `random.choice` (line 132): picks an element of the list, raising on an
empty list (`none` models the raised `IndexError`).  `k` is the random draw,
reduced to an index. -/
def random_choice (l : List String) (k : Nat) : Option String :=
  if h : 0 < l.length then some (l.get ⟨k % l.length, Nat.mod_lt _ h⟩) else none

/-- The nondeterministic inputs consumed while handling one post in the loop
of `interact_with_user` (lines 117-143). -/
structure PostEnv where
  /-- `post.click()` raises. -/
  clickFails : Bool
  /-- the wait for the like button, or its click, raises. -/
  likeFails : Bool
  /-- the value `random.random()` returns for the comment decision. -/
  commentRoll : ℚ
  /-- the random draw behind `random.choice`. -/
  choiceIdx : Nat
  /-- some step inside `leave_comment` raises (caught there). -/
  commentFails : Bool
  /-- the wait for the close button, or its click, raises. -/
  closeFails : Bool
deriving DecidableEq, Repr

/-- `leave_comment` (lines 148-160): on success it submits the comment and
sleeps; any exception is caught inside, yielding no events. -/
def leave_comment (cfg : Config) (text : String) (fails : Bool) : List Event :=
  if fails then [] else [Event.comment text, sleepEv cfg none none]

/-- The close-and-sleep tail of one post iteration (lines 134-139). -/
def closeStep (cfg : Config) (user : String) (i : Nat) (pe : PostEnv) : List Event :=
  if pe.closeFails then [] else [Event.closePost user i, sleepEv cfg none none]

/-- The comment-then-close block after a successful like (lines 130-139):
with probability `comment_probability` a comment is attempted first, and a
raising `random.choice` (empty comment pool) aborts the post before the
close. -/
def afterLike (cfg : Config) (user : String) (i : Nat) (pe : PostEnv) : List Event :=
  if pe.commentRoll < cfg.comment_probability then
    match random_choice cfg.random_comments pe.choiceIdx with
    | none => []
    | some text => leave_comment cfg text pe.commentFails ++ closeStep cfg user i pe
  else closeStep cfg user i pe

/-- The body of the `for i, post in enumerate(posts)` loop (lines 117-143):
click, sleep, like, possibly comment, close; the inner `try/except` catches
any exception and `continue`s, so a failing step just truncates this post's
events. -/
def processPost (cfg : Config) (user : String) (i : Nat) (pe : PostEnv) : List Event :=
  if pe.clickFails then []
  else
    Event.clickPost user i :: sleepEv cfg none none ::
      (if pe.likeFails then []
       else Event.like user i :: afterLike cfg user i pe)

/-- The nondeterministic inputs of one `interact_with_user` call. -/
structure ProfileEnv where
  /-- `driver.get` on the profile URL raises. -/
  getFails : Bool
  /-- the wait for `article a` elements raises. -/
  findPostsFails : Bool
  /-- the posts the page yields, in order. -/
  posts : List PostEnv

/-- `interact_with_user` (lines 105-146): navigate, sleep, slice the found
posts to `posts_per_user`, loop over them; the outer `try/except` catches
any exception before the loop (so the method never propagates one). -/
def interact_with_user (cfg : Config) (user : String) (env : ProfileEnv) : List Event :=
  if env.getFails then []
  else
    Event.navigate user :: sleepEv cfg none none ::
      (if env.findPostsFails then []
       else (env.posts.take cfg.posts_per_user).enum.flatMap
         (fun p => processPost cfg user p.1 p.2))

/-- The nondeterministic inputs of one iteration of `run`'s per-user loop. -/
structure UserStep where
  profileEnv : ProfileEnv
  /-- an unexpected exception escapes this iteration (e.g. from the
  `random_sleep(4, 7)` between users); `run`'s `except` then catches it. -/
  betweenRaises : Bool

/-- `cleanup` (lines 162-168): quits the driver; its own `try/except`
swallows any failure, so invoking it always yields exactly this trace. -/
def cleanup : List Event := [Event.cleanup]

/-- The `for username in target_users` loop of `run` (lines 180-182).
`env k` supplies the world for the `k`-th iteration; an iteration whose
`betweenRaises` is set aborts the loop (the exception propagates to `run`'s
`except`). -/
def runLoop (cfg : Config) (env : Nat → UserStep) : Nat → List String → List Event
  | _, [] => []
  | k, u :: us =>
    let ev := interact_with_user cfg u (env k).profileEnv
    if (env k).betweenRaises then ev
    else ev ++ sleepEv cfg (some 4) (some 7) :: runLoop cfg env (k + 1) us

/-- The nondeterministic inputs of one `run` call. -/
structure RunEnv where
  /-- the outcome `login` returns (it catches all its exceptions). -/
  loginOk : Bool
  userEnv : Nat → UserStep

/-- The argument of `run`: a single username string or a list of them. -/
inductive Target where
  | str (s : String)
  | list (l : List String)

/-- The `isinstance(target_users, str)` conversion at lines 174-175. -/
def Target.toUsers : Target → List String
  | .str s => [s]
  | .list l => l

/-- `run` (lines 170-187): convert the argument, log in (on failure,
`return`), loop over the users; the `except` catches anything from the loop
and the `finally` always invokes `cleanup`. -/
def run (cfg : Config) (renv : RunEnv) (target : Target) : List Event :=
  (if renv.loginOk then Event.login true :: runLoop cfg renv.userEnv 0 target.toUsers
   else [Event.login false]) ++ cleanup

/-- Is the event a `clickPost` (a post visit)? -/
def Event.isClick : Event → Bool
  | .clickPost _ _ => true
  | _ => false

/-- Is the event a profile navigation? -/
def Event.isNavigate : Event → Bool
  | .navigate _ => true
  | _ => false

/-- Is the event the cleanup invocation? -/
def Event.isCleanup : Event → Bool
  | .cleanup => true
  | _ => false

/-- Number of posts visited (clicked open) in a trace. -/
def countClicks (tr : List Event) : Nat := tr.countP Event.isClick

/-- Number of profile navigations in a trace. -/
def countNavs (tr : List Event) : Nat := tr.countP Event.isNavigate

/-- Number of cleanup invocations in a trace. -/
def countCleanups (tr : List Event) : Nat := tr.countP Event.isCleanup

/-- A post whose every selenium step succeeds and whose comment roll is
above any probability ≤ 1, used to instantiate environments concretely. -/
def idlePost : PostEnv :=
  { clickFails := false, likeFails := false, commentRoll := 1, choiceIdx := 0
    commentFails := false, closeFails := false }

/-- A per-user iteration in which nothing fails. -/
def idleStep : UserStep :=
  { profileEnv := { getFails := false, findPostsFails := false, posts := [] }
    betweenRaises := false }

/-- A per-user environment whose iteration 0 is `st` and whose later
iterations come from `e`, used to vary one user's world in isolation. -/
def consEnv (st : UserStep) (e : Nat → UserStep) : Nat → UserStep
  | 0 => st
  | k + 1 => e k

/-! ## Explicit-`self` wrappers

The Python methods receive `self`; its only data fields after `__init__`
are `username`, `password` and `config` (the driver handle carries no data
the model observes).  No method body contains an assignment to
`self.config`, so each method, made explicit as a state-passing function,
returns the state it received. -/

structure BotState where
  username : String
  password : String
  config : Config

/-- `random_sleep` with explicit `self`. -/
def random_sleep_st (s : BotState) (min_time max_time : Option ℚ) :
    (ℚ × ℚ) × BotState :=
  (random_sleep s.config min_time max_time, s)

/-- `login` with explicit `self`: its outcome is environment-determined and
it catches every exception internally (lines 72-103). -/
def login_st (s : BotState) (ok : Bool) : (Bool × List Event) × BotState :=
  ((ok, [Event.login ok]), s)

/-- `interact_with_user` with explicit `self`. -/
def interact_with_user_st (s : BotState) (u : String) (env : ProfileEnv) :
    List Event × BotState :=
  (interact_with_user s.config u env, s)

/-- `leave_comment` with explicit `self`. -/
def leave_comment_st (s : BotState) (text : String) (fails : Bool) :
    List Event × BotState :=
  (leave_comment s.config text fails, s)

/-- `cleanup` with explicit `self`. -/
def cleanup_st (s : BotState) : List Event × BotState :=
  (cleanup, s)

/-- `run` with explicit `self`. -/
def run_st (s : BotState) (renv : RunEnv) (t : Target) : List Event × BotState :=
  (run s.config renv t, s)

lemma countP_isClick_leave_comment (cfg : Config) (text : String) (fails : Bool) :
    (leave_comment cfg text fails).countP Event.isClick = 0 := by
  unfold leave_comment
  split <;> simp [sleepEv, Event.isClick]

lemma countP_isClick_closeStep (cfg : Config) (u : String) (i : Nat) (pe : PostEnv) :
    (closeStep cfg u i pe).countP Event.isClick = 0 := by
  unfold closeStep
  split <;> simp [sleepEv, Event.isClick]

lemma countP_isClick_afterLike (cfg : Config) (u : String) (i : Nat) (pe : PostEnv) :
    (afterLike cfg u i pe).countP Event.isClick = 0 := by
  unfold afterLike
  split
  · split
    · rfl
    · rw [List.countP_append, countP_isClick_leave_comment, countP_isClick_closeStep]
  · exact countP_isClick_closeStep cfg u i pe

lemma countP_isClick_processPost (cfg : Config) (u : String) (i : Nat) (pe : PostEnv) :
    (processPost cfg u i pe).countP Event.isClick ≤ 1 := by
  unfold processPost
  split
  · simp
  · simp only [List.countP_cons, sleepEv, Event.isClick]
    split
    · simp
    · simp [List.countP_cons, countP_isClick_afterLike, Event.isClick]

lemma countP_isClick_flatMap (cfg : Config) (u : String) :
    ∀ l : List (Nat × PostEnv),
      (l.flatMap (fun p => processPost cfg u p.1 p.2)).countP Event.isClick ≤ l.length := by
  intro l
  induction l with
  | nil => simp
  | cons hd tl ih =>
    simp only [List.flatMap_cons, List.length_cons, List.countP_append]
    have h1 := countP_isClick_processPost cfg u hd.1 hd.2
    omega

lemma countP_isCleanup_leave_comment (cfg : Config) (text : String) (fails : Bool) :
    (leave_comment cfg text fails).countP Event.isCleanup = 0 := by
  unfold leave_comment
  split <;> simp [sleepEv, Event.isCleanup]

lemma countP_isCleanup_closeStep (cfg : Config) (u : String) (i : Nat) (pe : PostEnv) :
    (closeStep cfg u i pe).countP Event.isCleanup = 0 := by
  unfold closeStep
  split <;> simp [sleepEv, Event.isCleanup]

lemma countP_isCleanup_afterLike (cfg : Config) (u : String) (i : Nat) (pe : PostEnv) :
    (afterLike cfg u i pe).countP Event.isCleanup = 0 := by
  unfold afterLike
  split
  · split
    · rfl
    · rw [List.countP_append, countP_isCleanup_leave_comment, countP_isCleanup_closeStep]
  · exact countP_isCleanup_closeStep cfg u i pe

lemma countP_isCleanup_processPost (cfg : Config) (u : String) (i : Nat) (pe : PostEnv) :
    (processPost cfg u i pe).countP Event.isCleanup = 0 := by
  unfold processPost
  split
  · rfl
  · simp only [List.countP_cons, sleepEv, Event.isCleanup]
    split
    · simp
    · simp [List.countP_cons, countP_isCleanup_afterLike, Event.isCleanup]

lemma countP_isCleanup_flatMap (cfg : Config) (u : String) :
    ∀ l : List (Nat × PostEnv),
      (l.flatMap (fun p => processPost cfg u p.1 p.2)).countP Event.isCleanup = 0 := by
  intro l
  induction l with
  | nil => rfl
  | cons hd tl ih =>
    simp only [List.flatMap_cons, List.countP_append, ih,
      countP_isCleanup_processPost]

lemma countP_isCleanup_interact (cfg : Config) (u : String) (env : ProfileEnv) :
    (interact_with_user cfg u env).countP Event.isCleanup = 0 := by
  unfold interact_with_user
  split
  · rfl
  · simp only [List.countP_cons, sleepEv, Event.isCleanup]
    split
    · simp
    · simp [countP_isCleanup_flatMap]

lemma countP_isCleanup_runLoop (cfg : Config) (env : Nat → UserStep) :
    ∀ (us : List String) (k : Nat),
      (runLoop cfg env k us).countP Event.isCleanup = 0 := by
  intro us
  induction us with
  | nil => intro k; rfl
  | cons u tl ih =>
    intro k
    unfold runLoop
    split
    · exact countP_isCleanup_interact cfg u (env k).profileEnv
    · simp [List.countP_append, List.countP_cons, countP_isCleanup_interact,
        sleepEv, Event.isCleanup, ih]

end InstagramBot

namespace InstagramBot

/-- **C2.** If the configuration file is missing, `load_config` returns
exactly the default configuration: wait_time min 2 and max 4,
posts_per_user 3, max_likes_per_session 50, the four canned comment
strings, and comment_probability 0.2. -/
theorem load_config_missing_gives_defaults :
    load_config none =
      { wait_time_min := some 2
        wait_time_max := some 4
        posts_per_user := some 3
        max_likes_per_session := some 50
        random_comments := some
          ["Great post! 👍", "Amazing! 🔥", "Love this! ❤️", "Awesome content! ✨"]
        comment_probability := some 0.2 } := rfl

/-- **C1 (counterexample).** The claim as stated is false: a file containing
exactly one key (`posts_per_user := 5`) does not yield the defaults with
only that field changed — `load_config` returns the file verbatim, so every
other key is absent rather than defaulted. -/
theorem load_config_no_merge_counterexample :
    ¬ (∀ d : ConfigDict, presentFields d = 1 →
        load_config (some d) = mergeWithDefaults d) := by
  intro h
  have h1 : presentFields onlyPostsFile = 1 := by decide
  have h2 := h onlyPostsFile h1
  have h3 := congrArg ConfigDict.wait_time_min h2
  simp [load_config, onlyPostsFile, mergeWithDefaults, defaultConfigDict,
    Option.orElse] at h3

/-- **C1 (amended).** When the configuration file exists, `load_config`
returns its parsed content verbatim: no merge with the defaults happens, so
a key absent from the file stays absent in the result. -/
theorem load_config_present_verbatim (d : ConfigDict) :
    load_config (some d) = d := rfl

/-- **C3.** For every target profile and every list of posts the page
yields, `interact_with_user` clicks open at most
`config['posts_per_user']` posts: the slice `posts[:posts_per_user]` bounds
the loop. -/
theorem interact_visits_at_most_limit (cfg : Config) (u : String) (env : ProfileEnv) :
    countClicks (interact_with_user cfg u env) ≤ cfg.posts_per_user := by
  unfold countClicks interact_with_user
  split
  · simp
  · simp only [List.countP_cons, sleepEv, Event.isClick]
    split
    · simp
    · have h := countP_isClick_flatMap cfg u (env.posts.take cfg.posts_per_user).enum
      have h2 : (env.posts.take cfg.posts_per_user).enum.length ≤ cfg.posts_per_user := by
        rw [List.enum_length, List.length_take]
        exact Nat.min_le_left _ _
      simp only [Bool.false_eq_true, reduceIte]
      omega

/-- **C4.** Every `run` invokes `cleanup` exactly once: the trace of any
run, whatever the login outcome and whatever fails inside the loop,
contains exactly one cleanup event — it comes from the `finally` block and
from nowhere else. -/
theorem run_cleanup_exactly_once (cfg : Config) (renv : RunEnv) (t : Target) :
    countCleanups (run cfg renv t) = 1 := by
  unfold countCleanups run cleanup
  split <;>
    simp [List.countP_append, List.countP_cons, countP_isCleanup_runLoop,
      Event.isCleanup]

/-- **C5.** If `login` reports failure, `run` performs no profile visit at
all — its whole trace is the failed login followed by the cleanup — and in
particular no navigation or post click happens while cleanup still runs
once. -/
theorem run_login_failure_no_visits (cfg : Config) (renv : RunEnv) (t : Target)
    (h : renv.loginOk = false) :
    run cfg renv t = [Event.login false, Event.cleanup] ∧
    countNavs (run cfg renv t) = 0 ∧
    countClicks (run cfg renv t) = 0 ∧
    countCleanups (run cfg renv t) = 1 := by
  have hrun : run cfg renv t = [Event.login false, Event.cleanup] := by
    simp [run, h, cleanup]
  refine ⟨hrun, ?_, ?_, ?_⟩ <;> rw [hrun] <;> rfl

/-- Witness for C5 at a concrete run: login fails, one target user. -/
theorem run_login_failure_no_visits_witness :
    (RunEnv.mk false (fun _ => idleStep)).loginOk = false ∧
    (run defaultConfig (RunEnv.mk false (fun _ => idleStep))
        (Target.list ["chairo_store101"]) = [Event.login false, Event.cleanup] ∧
      countNavs (run defaultConfig (RunEnv.mk false (fun _ => idleStep))
        (Target.list ["chairo_store101"])) = 0 ∧
      countClicks (run defaultConfig (RunEnv.mk false (fun _ => idleStep))
        (Target.list ["chairo_store101"])) = 0 ∧
      countCleanups (run defaultConfig (RunEnv.mk false (fun _ => idleStep))
        (Target.list ["chairo_store101"])) = 1) :=
  ⟨rfl, run_login_failure_no_visits defaultConfig
    (RunEnv.mk false (fun _ => idleStep)) (Target.list ["chairo_store101"]) rfl⟩

/-- **C9.** Passing a single username string to `run` behaves exactly like
passing the one-element list of it: the `isinstance` conversion makes the
two calls produce identical traces. -/
theorem run_string_eq_run_singleton (cfg : Config) (renv : RunEnv) (s : String) :
    run cfg renv (Target.str s) = run cfg renv (Target.list [s]) := rfl

lemma flatMap_enumFrom_append (F : Nat × PostEnv → List Event) :
    ∀ (l₁ l₂ : List PostEnv) (k : Nat),
      ((l₁ ++ l₂).enumFrom k).flatMap F =
        (l₁.enumFrom k).flatMap F ++ (l₂.enumFrom (k + l₁.length)).flatMap F := by
  intro l₁
  induction l₁ with
  | nil => intro l₂ k; simp
  | cons hd tl ih =>
    intro l₂ k
    simp only [List.cons_append, List.enumFrom_cons, List.flatMap_cons,
      List.length_cons, ih, List.append_assoc]
    have he : k + 1 + tl.length = k + (tl.length + 1) := by omega
    rw [he]

lemma take_middle (n : Nat) (l₁ l₂ : List PostEnv) (p : PostEnv) (h : l₁.length < n) :
    (l₁ ++ p :: l₂).take n = l₁ ++ p :: l₂.take (n - l₁.length - 1) := by
  rw [List.take_append_eq_append_take, List.take_of_length_le (le_of_lt h)]
  obtain ⟨m, hm⟩ : ∃ m, n - l₁.length = m + 1 := ⟨n - l₁.length - 1, by omega⟩
  rw [hm, List.take_succ_cons]
  simp

lemma runLoop_cons (cfg : Config) (env : Nat → UserStep) (k : Nat) (u : String)
    (us : List String) :
    runLoop cfg env k (u :: us) =
      if (env k).betweenRaises then interact_with_user cfg u (env k).profileEnv
      else interact_with_user cfg u (env k).profileEnv ++
        sleepEv cfg (some 4) (some 7) :: runLoop cfg env (k + 1) us := rfl

lemma runLoop_consEnv_irrel (cfg : Config) (e : Nat → UserStep) (st st' : UserStep) :
    ∀ (us : List String) (k : Nat),
      runLoop cfg (consEnv st e) (k + 1) us = runLoop cfg (consEnv st' e) (k + 1) us := by
  intro us
  induction us with
  | nil => intro k; rfl
  | cons u tl ih =>
    intro k
    unfold runLoop
    simp only [consEnv]
    rw [ih (k + 1)]

/-- **C6.** A failure on one post is isolated: with the page yielding posts
`l₁ ++ pe :: l₂`, the trace of `interact_with_user` is `A ++ events-of-pe
++ B` where `A` and `B` do not depend on `pe` at all — however post
`l₁.length` fails, the earlier and later posts are processed identically —
and at the `run` level the whole trace around one user's interaction is
likewise independent of that user's world, so subsequent profiles are still
processed; `interact_with_user` is a total function (it propagates no
exception). -/
theorem single_post_failure_isolated (cfg : Config) (u : String) (us : List String)
    (l₁ l₂ : List PostEnv) (e : Nat → UserStep)
    (h : l₁.length < cfg.posts_per_user) :
    (∃ A B, ∀ pe : PostEnv,
        interact_with_user cfg u (ProfileEnv.mk false false (l₁ ++ pe :: l₂)) =
          A ++ processPost cfg u l₁.length pe ++ B) ∧
    (∃ C D, ∀ penv : ProfileEnv,
        run cfg (RunEnv.mk true (consEnv (UserStep.mk penv false) e))
            (Target.list (u :: us)) =
          C ++ interact_with_user cfg u penv ++ D) := by
  constructor
  · refine ⟨Event.navigate u :: sleepEv cfg none none ::
        (l₁.enumFrom 0).flatMap (fun p => processPost cfg u p.1 p.2),
      ((l₂.take (cfg.posts_per_user - l₁.length - 1)).enumFrom (l₁.length + 1)).flatMap
        (fun p => processPost cfg u p.1 p.2), ?_⟩
    intro pe
    show Event.navigate u :: sleepEv cfg none none ::
        (((l₁ ++ pe :: l₂).take cfg.posts_per_user).enumFrom 0).flatMap
          (fun p => processPost cfg u p.1 p.2) = _
    rw [take_middle _ _ _ _ h, flatMap_enumFrom_append, List.enumFrom_cons,
      List.flatMap_cons]
    simp [List.append_assoc]
  · refine ⟨[Event.login true],
      sleepEv cfg (some 4) (some 7) :: runLoop cfg (consEnv idleStep e) 1 us ++ cleanup,
      ?_⟩
    intro penv
    show (Event.login true ::
        runLoop cfg (consEnv (UserStep.mk penv false) e) 0 (u :: us)) ++ cleanup = _
    rw [runLoop_cons]
    rw [runLoop_consEnv_irrel cfg e (UserStep.mk penv false) idleStep us 0]
    simp [consEnv]

/-- Witness for C6 at a concrete run: one target user, one post. -/
theorem single_post_failure_isolated_witness :
    ([] : List PostEnv).length < defaultConfig.posts_per_user ∧
    ((∃ A B, ∀ pe : PostEnv,
        interact_with_user defaultConfig "chairo_store101"
            (ProfileEnv.mk false false ([] ++ pe :: [])) =
          A ++ processPost defaultConfig "chairo_store101"
            ([] : List PostEnv).length pe ++ B) ∧
     (∃ C D, ∀ penv : ProfileEnv,
        run defaultConfig
            (RunEnv.mk true (consEnv (UserStep.mk penv false) (fun _ => idleStep)))
            (Target.list ("chairo_store101" :: [])) =
          C ++ interact_with_user defaultConfig "chairo_store101" penv ++ D)) :=
  ⟨by decide, single_post_failure_isolated defaultConfig "chairo_store101" [] [] []
    (fun _ => idleStep) (by decide)⟩

lemma interact_like_cap_irrel (cfg : Config) (m : Nat) (u : String) (env : ProfileEnv) :
    interact_with_user { cfg with max_likes_per_session := m } u env =
      interact_with_user cfg u env := rfl

lemma runLoop_like_cap_irrel (cfg : Config) (m : Nat) (env : Nat → UserStep) :
    ∀ (us : List String) (k : Nat),
      runLoop { cfg with max_likes_per_session := m } env k us =
        runLoop cfg env k us := by
  intro us
  induction us with
  | nil => intro k; rfl
  | cons u tl ih =>
    intro k
    unfold runLoop
    rw [interact_like_cap_irrel, ih]
    rfl

/-- **C7.** The like cap is read into the configuration but never enforced:
two runs whose configurations agree on everything except
`max_likes_per_session` produce identical traces in every environment. -/
theorem run_independent_of_like_cap (cfg₁ cfg₂ : Config) (renv : RunEnv) (t : Target)
    (h1 : cfg₁.wait_time_min = cfg₂.wait_time_min)
    (h2 : cfg₁.wait_time_max = cfg₂.wait_time_max)
    (h3 : cfg₁.posts_per_user = cfg₂.posts_per_user)
    (h4 : cfg₁.random_comments = cfg₂.random_comments)
    (h5 : cfg₁.comment_probability = cfg₂.comment_probability) :
    run cfg₁ renv t = run cfg₂ renv t := by
  have hc : cfg₁ = { cfg₂ with max_likes_per_session := cfg₁.max_likes_per_session } := by
    cases cfg₁
    cases cfg₂
    simp_all
  rw [hc]
  unfold run
  rw [runLoop_like_cap_irrel]

/-- Witness for C7: the default configuration against the same with the
like cap set to 0 — traces coincide. -/
theorem run_independent_of_like_cap_witness :
    defaultConfig.wait_time_min =
        (Config.mk 2 4 3 0 defaultConfig.random_comments 0.2).wait_time_min ∧
    defaultConfig.wait_time_max =
        (Config.mk 2 4 3 0 defaultConfig.random_comments 0.2).wait_time_max ∧
    defaultConfig.posts_per_user =
        (Config.mk 2 4 3 0 defaultConfig.random_comments 0.2).posts_per_user ∧
    defaultConfig.random_comments =
        (Config.mk 2 4 3 0 defaultConfig.random_comments 0.2).random_comments ∧
    defaultConfig.comment_probability =
        (Config.mk 2 4 3 0 defaultConfig.random_comments 0.2).comment_probability ∧
    run defaultConfig (RunEnv.mk true (fun _ => idleStep)) (Target.str "sandanu_hewage") =
      run (Config.mk 2 4 3 0 defaultConfig.random_comments 0.2)
        (RunEnv.mk true (fun _ => idleStep)) (Target.str "sandanu_hewage") :=
  ⟨rfl, rfl, rfl, rfl, rfl,
    run_independent_of_like_cap defaultConfig
      (Config.mk 2 4 3 0 defaultConfig.random_comments 0.2)
      (RunEnv.mk true (fun _ => idleStep)) (Target.str "sandanu_hewage")
      rfl rfl rfl rfl rfl⟩

/-- **C8.** `self.config` is never mutated after `__init__`: each method of
the session object, with `self` made explicit, returns a state whose
`config` equals the one it received. -/
theorem config_never_mutated (s : BotState) (mn mx : Option ℚ) (ok : Bool)
    (u : String) (env : ProfileEnv) (text : String) (fails : Bool)
    (renv : RunEnv) (t : Target) :
    (random_sleep_st s mn mx).2.config = s.config ∧
    (login_st s ok).2.config = s.config ∧
    (interact_with_user_st s u env).2.config = s.config ∧
    (leave_comment_st s text fails).2.config = s.config ∧
    (cleanup_st s).2.config = s.config ∧
    (run_st s renv t).2.config = s.config :=
  ⟨rfl, rfl, rfl, rfl, rfl, rfl⟩

/-- **C10.** In `random_sleep`, an argument that is `None` or `0` is
replaced by the corresponding configured `wait_time` bound — the fallback
is Python's `or`, which treats `0` as falsy — so an explicit zero delay
bound never takes effect. -/
theorem random_sleep_zero_replaced_by_default (cfg : Config) (t : Option ℚ) :
    (random_sleep cfg (some 0) t).1 = cfg.wait_time_min ∧
    (random_sleep cfg none t).1 = cfg.wait_time_min ∧
    (random_sleep cfg t (some 0)).2 = cfg.wait_time_max ∧
    (random_sleep cfg t none).2 = cfg.wait_time_max := by
  refine ⟨?_, rfl, ?_, rfl⟩ <;> simp [random_sleep, pyOr]

end InstagramBot
